import Mathlib

/-!
# perf-tester

A shallow embedding of `src/perf-tester/per-test.cpp` (the functions
`print_usage` and `main`) and the properties of it that the specification
states.

The process is modelled by explicit state passing: the bytes written to
`std::cout` and the number of times the clock was sampled.  What the process
could observe of the operating system is collected in `Env`.

Three places of the source need a convention:

* `end_time` (line 38) is used but declared nowhere in the file, so it is a
  parameter of `main`.
* `std::string s = argv[i]` with `argv[i]` the terminating null pointer
  `argv[argc]` is undefined behaviour; `main` then has no result (`none`).
* the body of `main` ends after the fourth report line without a `return`;
  flowing off the end of `main` is `return 0`.

Time points and durations of `high_resolution_clock` are signed 64-bit tick
counts; their difference is taken modulo 2^64 (`wrap64`).
-/

namespace PerfTest

/-! ## Environment and process state -/

/-- What the operating system offers to the process. -/
structure Env where
  -- the value of the k-th call of `high_resolution_clock::now()`, in ticks
  clock : Nat → Int
  -- whether a path names an existing file with execute permission
  executable : String → Bool
  -- the exit code with which the file at a path terminates on an argument line
  exitCodeOf : String → String → Int

/-- The state of the running process that the claims observe. -/
structure Proc where
  -- the bytes written to `std::cout` so far
  cout : String
  -- how many times `high_resolution_clock::now()` has been called so far
  clockReads : Nat
deriving DecidableEq, Repr

/-- What is left when `main` returns. -/
structure Exit where
  -- the value returned by `main`
  code : Int
  -- everything written to `std::cout`
  cout : String
  -- how many times the clock was sampled
  clockReads : Nat
  -- the local `duration` in milliseconds, when line 38 was reached
  duration : Option Int
deriving DecidableEq, Repr

/-- The process before the first statement of `main`. -/
def start : Proc := ⟨"", 0⟩

/-- The effect of `std::cout << s`. -/
def put (p : Proc) (s : String) : Proc := ⟨p.cout ++ s, p.clockReads⟩

/-- The effect of `std::cout << std::endl`: a newline (and a flush). -/
def endl (p : Proc) : Proc := ⟨p.cout ++ "\n", p.clockReads⟩

/-- The call `std::chrono::high_resolution_clock::now()`: the next sample. -/
def now (env : Env) (p : Proc) : Int × Proc :=
  (env.clock p.clockReads, ⟨p.cout, p.clockReads + 1⟩)

/-- The signed 64-bit value of an integer: the representative of `x` modulo
2^64 in the range from -2^63 to 2^63 - 1.  The tick count of a time point or a
duration is such a value. -/
def wrap64 (x : Int) : Int :=
  (x + 9223372036854775808) % 18446744073709551616 - 9223372036854775808

/-- Ticks of `high_resolution_clock` in one millisecond (nanosecond period). -/
def ticksPerMilli : Int := 1000000

/-- The conversion `std::chrono::duration_cast<std::chrono::milliseconds>` of a
tick count: integer division, truncating toward zero. -/
def duration_cast (ticks : Int) : Int := Int.tdiv ticks ticksPerMilli

/-- The initialisation `std::string s = argv[i]`.  The entries of `argv` are
`argv[0] .. argv[argc-1]`; `argv[argc]` is the null pointer, from which no
string can be constructed, and nothing lies behind it. -/
def string_from (argv : List String) (i : Nat) : Option String := argv[i]?

/-! ## The program -/

/-- The usage line that `print_usage` writes. -/
def usageText : String :=
  "Usage: perftest <lang> <binary> <args> <options> > <output_file.txt>"

/-- The function `print_usage` (lines 15-17). -/
def print_usage (p : Proc) : Proc := endl (put p usageText)

/-- The function `main` (lines 19-44); `argc` is the length of `argv`. -/
def main (argv : List String) (env : Env) (end_time : Int) : Option Exit :=
  let argc := argv.length
  if argc < 4 then
    let p := print_usage start
    some ⟨1, p.cout, p.clockReads, none⟩
  else do
    let lang ← string_from argv 1
    let binary ← string_from argv 2
    let args ← string_from argv 3
    let options ← string_from argv 4
    -- start timer
    let (start_time, p) := now env start
    -- run binary (the source has no statement here)
    -- stop timer
    let duration := duration_cast (wrap64 (end_time - start_time))
    -- print results with lang, binary, args, options
    let p := endl (put (put p "lang: ") lang)
    let p := endl (put (put p "binary: ") binary)
    let p := endl (put (put p "args: ") args)
    let p := endl (put (put p "options: ") options)
    some ⟨0, p.cout, p.clockReads, some duration⟩

/-- The report that `main` prints for four arguments. -/
def report (lang binary args options : String) : String :=
  "lang: " ++ lang ++ "\n" ++ "binary: " ++ binary ++ "\n" ++
    "args: " ++ args ++ "\n" ++ "options: " ++ options ++ "\n"

/-- The labels that start the lines of the report. -/
def reportLabels : List String := ["lang: ", "binary: ", "args: ", "options: "]

/-- An environment whose clock shows `t` at every sample, in which no file
exists. -/
def frozenAt (t : Int) : Env := ⟨fun _ => t, fun _ => false, fun _ _ => 0⟩

/-- An environment in which every path is an executable file that terminates
with exit code `c`, and whose clock shows `t` at every sample. -/
def exitingWith (c t : Int) : Env := ⟨fun _ => t, fun _ => true, fun _ _ => c⟩

/-! ## Helper lemmas -/

theorem main_of_lt_four (argv : List String) (env : Env) (e : Int)
    (h : argv.length < 4) :
    main argv env e = some ⟨1, usageText ++ "\n", 0, none⟩ := by
  simp [main, h, print_usage, endl, put, start]

theorem main_of_five (prog lang binary args options : String) (rest : List String)
    (env : Env) (e : Int) :
    main (prog :: lang :: binary :: args :: options :: rest) env e =
      some ⟨0, report lang binary args options, 1,
        some (duration_cast (wrap64 (e - env.clock 0)))⟩ := by
  simp [main, string_from, now, endl, put, start, report, String.append_assoc]

theorem main_of_four (a b c d : String) (env : Env) (e : Int) :
    main [a, b, c, d] env e = none := by
  simp [main, string_from]

theorem wrap64_of_small (x : Int) (h1 : -9223372036854775808 ≤ x)
    (h2 : x < 9223372036854775808) : wrap64 x = x := by
  unfold wrap64
  omega

theorem wrap64_below : wrap64 (-9223372036854775808 - 1) = 9223372036854775807 := by
  decide

theorem wrap64_above : wrap64 (9223372036854775807 - -9223372036854775808) = -1 := by
  decide

/-! ## Usage errors -/

/-- C2: an invocation with two user-supplied arguments (`argc = 3`) returns
exit code 1, its standard output is exactly the usage line followed by a
newline, the clock is never sampled, the duration is never computed, and none
of the report labels `lang: `, `binary: `, `args: `, `options: ` occurs in the
output. -/
theorem main_two_arguments (argv : List String) (env : Env) (e : Int)
    (h : argv.length = 3) :
    ∃ r, main argv env e = some r ∧ r.code = 1 ∧
      r.cout = "Usage: perftest <lang> <binary> <args> <options> > <output_file.txt>\n" ∧
      r.clockReads = 0 ∧ r.duration = none ∧
      ∀ l ∈ reportLabels, ¬ l.data <:+: r.cout.data := by
  refine ⟨_, main_of_lt_four argv env e (by omega), rfl, by decide, rfl, rfl, ?_⟩
  set_option maxRecDepth 100000 in decide

theorem main_two_arguments_witness :
    ∃ r, main ["perftest", "cpp", "./bench"] (frozenAt 0) 0 = some r ∧ r.code = 1 ∧
      r.cout = "Usage: perftest <lang> <binary> <args> <options> > <output_file.txt>\n" ∧
      r.clockReads = 0 ∧ r.duration = none ∧
      ∀ l ∈ reportLabels, ¬ l.data <:+: r.cout.data :=
  main_two_arguments ["perftest", "cpp", "./bench"] (frozenAt 0) 0 (by decide)

/-- C1, at the failing input: with three user-supplied arguments (`argc = 4`)
the test `argc < 4` is false, so `main` neither prints the usage text nor
returns 1; it goes on to build `options` from `argv[4]`, the null pointer, and
has no defined result. -/
theorem main_three_arguments_no_usage :
    main ["perftest", "cpp", "./bench", "n=1"] (frozenAt 0) 0 = none ∧
      main ["perftest", "cpp", "./bench", "n=1"] (frozenAt 0) 0 ≠
        some ⟨1, usageText ++ "\n", 0, none⟩ := by
  decide

/-- C9, on the code: `main` has no defined result exactly when its usage
check is passed (`argc < 4` is false) and the entry it reads at index 4 for
`options` is not a present argument; this is the case exactly for `argc = 4`,
where index 4 is `argc` itself, the terminating null entry, while the entries
at the indices 1, 2 and 3 are present. -/
theorem main_reads_argv_argc (argv : List String) (env : Env) (e : Int) :
    (main argv env e = none ↔ ¬ argv.length < 4 ∧ string_from argv 4 = none) ∧
      ((¬ argv.length < 4 ∧ string_from argv 4 = none) ↔ argv.length = 4) ∧
      (argv.length = 4 → main argv env e = none ∧
        (string_from argv 1).isSome ∧ (string_from argv 2).isSome ∧
        (string_from argv 3).isSome) := by
  match argv with
  | [] => simp [main_of_lt_four, string_from]
  | [_] => simp [main_of_lt_four, string_from]
  | [_, _] => simp [main_of_lt_four, string_from]
  | [_, _, _] => simp [main_of_lt_four, string_from]
  | [a, b, c, d] => simp [main_of_four, string_from]
  | prog :: lang :: binary :: args :: options :: rest =>
    simp [main_of_five, string_from]

/-! ## The report -/

/-- C3: for every invocation with four (or more) user-supplied arguments,
whatever strings they are, `main` returns and its standard output is exactly
the four lines `lang: <lang>`, `binary: <binary>`, `args: <args>`,
`options: <options>`, in this order, each ended by a newline, with the
arguments copied unchanged. -/
theorem main_report (prog lang binary args options : String) (rest : List String)
    (env : Env) (e : Int) :
    ∃ r, main (prog :: lang :: binary :: args :: options :: rest) env e = some r ∧
      r.cout = "lang: " ++ lang ++ "\n" ++ "binary: " ++ binary ++ "\n" ++
        "args: " ++ args ++ "\n" ++ "options: " ++ options ++ "\n" :=
  ⟨_, main_of_five prog lang binary args options rest env e, rfl⟩

/-- C5: for every invocation with at least four user-supplied arguments
(`argc ≥ 5`), in every environment and for every `end_time`, `main` returns
and its exit code is 0. -/
theorem main_exit_zero (argv : List String) (env : Env) (e : Int)
    (h : 5 ≤ argv.length) :
    ∃ r, main argv env e = some r ∧ r.code = 0 := by
  match argv, h with
  | prog :: lang :: binary :: args :: options :: rest, _ =>
    exact ⟨_, main_of_five prog lang binary args options rest env e, rfl⟩

theorem main_exit_zero_witness :
    ∃ r, main ["perftest", "cpp", "./bench", "n=1", "-"] (exitingWith 42 0) 0 = some r ∧
      r.code = 0 :=
  main_exit_zero ["perftest", "cpp", "./bench", "n=1", "-"] (exitingWith 42 0) 0 (by decide)

/-- C10: for every argument vector with more than four user-supplied
arguments (`argc > 5`), `main` gives the same result (exit code, standard
output, clock samples, duration) as on the vector cut to the program name and
the first four arguments. -/
theorem main_ignores_extra_arguments (argv : List String) (env : Env) (e : Int)
    (h : 5 < argv.length) :
    main argv env e = main (argv.take 5) env e ∧
      (main argv env e).map Exit.code = (main (argv.take 5) env e).map Exit.code ∧
      (main argv env e).map Exit.cout = (main (argv.take 5) env e).map Exit.cout := by
  match argv, h with
  | prog :: lang :: binary :: args :: options :: rest, _ =>
    simp [main_of_five]

theorem main_ignores_extra_arguments_witness :
    main ["perftest", "cpp", "./bench", "n=1", "-", "x", "y"] (frozenAt 0) 0 =
        main (["perftest", "cpp", "./bench", "n=1", "-", "x", "y"].take 5) (frozenAt 0) 0 ∧
      (main ["perftest", "cpp", "./bench", "n=1", "-", "x", "y"] (frozenAt 0) 0).map Exit.code =
        (main (["perftest", "cpp", "./bench", "n=1", "-", "x", "y"].take 5)
          (frozenAt 0) 0).map Exit.code ∧
      (main ["perftest", "cpp", "./bench", "n=1", "-", "x", "y"] (frozenAt 0) 0).map Exit.cout =
        (main (["perftest", "cpp", "./bench", "n=1", "-", "x", "y"].take 5)
          (frozenAt 0) 0).map Exit.cout :=
  main_ignores_extra_arguments ["perftest", "cpp", "./bench", "n=1", "-", "x", "y"]
    (frozenAt 0) 0 (by decide)

/-! ## The measurement -/

/-- C6, at the failing input: with four arguments, a clock that shows
5 000 000 ticks (5 ms) and `end_time` = 0, `main` samples the clock once only
(for `start_time`; `end_time` is no sample of it) and the duration it computes
is -5 ms. -/
theorem main_duration_negative :
    main ["perftest", "cpp", "./bench", "n=1", "-"] (frozenAt 5000000) 0 =
      some ⟨0, "lang: cpp\nbinary: ./bench\nargs: n=1\noptions: -\n", 1, some (-5)⟩ := by
  decide

/-- C4, at the failing input: two runs on the same four arguments whose
computed durations are 3 ms and 9 ms, one with a binary that exits with 0 and
one with a binary that exits with 42, write the same standard output: the four
echoed lines, without the elapsed time and without an exit status. -/
theorem report_without_measurement :
    main ["perftest", "cpp", "./bench", "n=1", "-"] (exitingWith 0 0) 3000000 =
        some ⟨0, "lang: cpp\nbinary: ./bench\nargs: n=1\noptions: -\n", 1, some 3⟩ ∧
      main ["perftest", "cpp", "./bench", "n=1", "-"] (exitingWith 42 0) 9000000 =
        some ⟨0, "lang: cpp\nbinary: ./bench\nargs: n=1\noptions: -\n", 1, some 9⟩ := by
  decide

/-- C7 is false as stated: in an environment in which no file exists, the run
on the binary path `/no/such/binary` samples the clock for `start_time`, so
the timer is started; at this input the duration it computes is 3 ms and the
standard output carries no status. -/
theorem missing_binary_starts_timer :
    (frozenAt 1000000).executable "/no/such/binary" = false ∧
      main ["perftest", "cpp", "/no/such/binary", "n=1", "-"] (frozenAt 1000000) 4000000 =
        some ⟨0, "lang: cpp\nbinary: /no/such/binary\nargs: n=1\noptions: -\n", 1,
          some 3⟩ := by
  decide

/-- C7, amended: `main` takes the start-time sample without validating the
binary first.  For every invocation with four arguments, in every environment
(whether or not the binary path names an executable file there) and for every
`end_time`, `main` returns and the clock has been sampled: the timer is
started. -/
theorem timer_started_without_validation (prog lang binary args options : String)
    (rest : List String) (env : Env) (e : Int) :
    ∃ r, main (prog :: lang :: binary :: args :: options :: rest) env e = some r ∧
      0 < r.clockReads :=
  ⟨_, main_of_five prog lang binary args options rest env e, Nat.zero_lt_one⟩

/-- C8, at the failing input: for a binary that terminates with exit code 42
the run reports neither a status nor the exit code; its result is the one it
has for a binary that terminates with exit code 0. -/
theorem exit_code_not_reported :
    (exitingWith 42 0).exitCodeOf "./bench" "n=1" = 42 ∧
      main ["perftest", "cpp", "./bench", "n=1", "-"] (exitingWith 42 0) 0 =
        some ⟨0, "lang: cpp\nbinary: ./bench\nargs: n=1\noptions: -\n", 1, some 0⟩ ∧
      main ["perftest", "cpp", "./bench", "n=1", "-"] (exitingWith 42 0) 0 =
        main ["perftest", "cpp", "./bench", "n=1", "-"] (exitingWith 0 0) 0 := by
  decide

end PerfTest
